import Mathlib

set_option maxRecDepth 8000

/-!
Shallow embedding of the JPEG header decoder in src/jpeg/header.rs.

Byte streams are `List Nat` with entries intended in 0..255.  Machine
arithmetic follows release-mode Rust semantics: unsigned overflow wraps
(written with explicit `% 256` / `% 65536` where it can occur), `i16`
casts are modelled with `toI16`, and operations that panic in Rust
(`todo!`, out-of-bounds indexing, `unwrap` on `None`) are modelled by the
`DResult.abort` outcome, distinct from returning an `Error` value.
-/

namespace Jpeg

inductive SOF0MarkerError where
  | MissingNextByte
  | InvalidComponentNumber
  | ZeroDimensions
  | InvalidComponentID
  | ComponentAlreadySet
  | UnsupportedComponentQTable
  | InvalidMarkerLength
  | InvalidPrecision
  | NoComponentSet
deriving DecidableEq, Repr

inductive DQTError where
  | MissingNextByte
  | InvalidTableDestination
  | NoTableSet
deriving DecidableEq, Repr

inductive DHTError where
  | MissingNextByte
  | InvalidMarkerLength
  | InvalidTableId
  | InvalidSymbolsLength
  | NoTableSet
deriving DecidableEq, Repr

inductive SOSError where
  | MissingNextByte
  | InvalidMarkerLength
  | InvalidOrder
  | InvalidComponentNumber
  | InvalidComponentID
  | DuplicateComponentID
  | InvalidHuffmanTableID
  | InvalidSpectralSelection
  | InvalidSuccesiveApproximation
deriving DecidableEq, Repr

inductive HuffmanDecodingError where
  | ReadPastLength
  | SymbolNotFound
  | InvalidDCCoefficientLength
  | ZerosExceedMCULength
  | InvalidACCoefficientLength
deriving DecidableEq, Repr

inductive Error where
  | StartOfImageNotFound
  | StartOfFrameNotFound
  | QTableNotFound
  | HTableNotFound
  | SOSNotFound
  | InvalidMarker
  | UnknownMarker : Nat → Error
  | MultipleSOI
  | MultipleSOF
  | InvalidAPP0Marker
  | InvalidDQTMarker : DQTError → Error
  | InvalidSOF0Marker : SOF0MarkerError → Error
  | InvalidDHTMarker : DHTError → Error
  | InvalidSOSMarker : SOSError → Error
  | NoData
  | InvalidRestartIntervalMarker
  | RestartMarkerBeforeSOS
  | EndOfImageBeforeSOS
  | PrematureEnd
  | InvalidColorComponent
  | HuffmanDecode : HuffmanDecodingError → Error
deriving DecidableEq, Repr

/-- Outcome of running a fallible piece of the decoder: a value, an
`Error` value, or a Rust panic (`todo!`, out-of-bounds index, failed
`unwrap`), which aborts the process instead of returning. -/
inductive DResult (α : Type) where
  | ok : α → DResult α
  | err : Error → DResult α
  | abort : DResult α
deriving DecidableEq, Repr

def DResult.bind {α β : Type} : DResult α → (α → DResult β) → DResult β
  | .ok a, f => f a
  | .err e, _ => .err e
  | .abort, _ => .abort

instance : Monad DResult where
  pure := DResult.ok
  bind := DResult.bind

/-- `ZIGZAG` constant from src/jpeg/header.rs. -/
def ZIGZAG : List Nat :=
  [0, 1, 8, 16, 9, 2, 3, 10, 17, 24, 32, 25, 18, 11, 4, 5, 12, 19, 26, 33, 40, 48, 41, 34, 27, 20,
   13, 6, 7, 14, 21, 28, 35, 42, 49, 56, 57, 50, 43, 36, 29, 22, 15, 23, 30, 37, 44, 51, 58, 59,
   52, 45, 38, 31, 39, 46, 53, 60, 61, 54, 47, 55, 62, 63]

/-- `stream.next().ok_or(e)?`: take one byte off the stream. -/
def rnext (s : List Nat) (e : Error) : DResult (Nat × List Nat) :=
  match s with
  | [] => .err e
  | b :: rest => .ok (b, rest)

/-- `Marker::marker_length`: big-endian 16-bit length, without the `- 2`. -/
def markerLength (s : List Nat) (e : Error) : DResult (Nat × List Nat) := do
  let (x, s) ← rnext s e
  let (y, s) ← rnext s e
  .ok ((256 * x + y) % 65536, s)

/-- Cast of a `u16`-range value to Rust `i16` (used for segment lengths). -/
def toI16 (n : Nat) : Int :=
  if n % 65536 < 32768 then (n % 65536 : Int) else (n % 65536 : Int) - 65536

inductive JfifUnit where
  | NoUnit
  | PerInch
  | PerCenti
deriving DecidableEq, Repr

structure APP0 where
  major_version : Nat
  minor_version : Nat
  units : JfifUnit
  x_density : Nat
  y_density : Nat
  x_thumbnail : Nat
  y_thumbnail : Nat
  thumbnail_data : List Nat
deriving DecidableEq, Repr

inductive QTableType where
  | Luminance
  | Chrominance
  | Other
deriving DecidableEq, Repr

structure QTable where
  is_set : Bool
  is_extended_mode : Bool
  kind : QTableType
  table : List Nat
deriving DecidableEq, Repr

def QTable.init : QTable :=
  { is_set := false, is_extended_mode := false, kind := .Other, table := List.replicate 64 0 }

structure ColorComponent where
  id : Nat
  hfactor : Nat
  vfactor : Nat
  qtable : Nat
  huffman_table_ac_id : Nat
  huffman_table_dc_id : Nat
  is_used_sof : Bool
  is_used_sos : Bool
deriving DecidableEq, Repr

def ColorComponent.init : ColorComponent :=
  { id := 0, hfactor := 0, vfactor := 0, qtable := 0, huffman_table_ac_id := 0,
    huffman_table_dc_id := 0, is_used_sof := false, is_used_sos := false }

structure HuffmanTable where
  offsets : List Nat
  symbols : List Nat
  codes : List Nat
  is_set : Bool
deriving DecidableEq, Repr

def HuffmanTable.init : HuffmanTable :=
  { offsets := List.replicate 17 0, symbols := List.replicate 162 0,
    codes := List.replicate 162 0, is_set := false }

structure MCU where
  r : List Int
  g : List Int
  b : List Int
  is_rbg : Bool
deriving DecidableEq, Repr

def MCU.init : MCU :=
  { r := List.replicate 64 0, g := List.replicate 64 0, b := List.replicate 64 0, is_rbg := true }

inductive DecodingOutcome where
  | none
  | QTableSet
  | StartOfFrame
  | HuffmanTable
  | StartOfScan
deriving DecidableEq, Repr

structure JPEGHeader where
  jfif : Option APP0
  qtables : List QTable
  restart_interval : Nat
  zero_based_component_id : Bool
  huffman_tables_dc : List HuffmanTable
  huffman_tables_ac : List HuffmanTable
  components : List ColorComponent
  is_sof_set : Bool
  height : Nat
  width : Nat
  start_of_selection : Nat
  end_of_selection : Nat
  successive_approximation_high : Nat
  successive_approximation_low : Nat
  huffman_data : List Nat
deriving DecidableEq, Repr

def JPEGHeader.init : JPEGHeader :=
  { jfif := none, qtables := List.replicate 4 QTable.init, restart_interval := 0,
    zero_based_component_id := false, huffman_tables_dc := List.replicate 4 HuffmanTable.init,
    huffman_tables_ac := List.replicate 4 HuffmanTable.init,
    components := List.replicate 3 ColorComponent.init, is_sof_set := false, height := 0,
    width := 0, start_of_selection := 0, end_of_selection := 63,
    successive_approximation_high := 0, successive_approximation_low := 0, huffman_data := [] }

/-- Inner loop of `HuffmanTable::generate_codes`: `for c in current..next
{ codes[c] = code; code += 1 }`, with `n = next - current` iterations
starting at index `s` and value `code`. -/
def fillCodes : Nat → Nat → Nat → List Nat → List Nat
  | 0, _, _, codes => codes
  | n + 1, s, code, codes => fillCodes n (s + 1) (code + 1) (codes.set s code)

/-- One iteration of the outer loop of `HuffmanTable::generate_codes`
(the `u32` code value never exceeds `2 ^ 25` for `u8` offsets, so plain
`Nat` arithmetic is exact). -/
def genStep (offsets : List Nat) (acc : List Nat × Nat) (i : Nat) : List Nat × Nat :=
  let current := offsets.getD i 0
  let next := offsets.getD (i + 1) 0
  (fillCodes (next - current) current acc.2 acc.1, 2 * (acc.2 + (next - current)))

/-- `HuffmanTable::generate_codes` from src/jpeg/header.rs. -/
def HuffmanTable.generate_codes (t : HuffmanTable) : HuffmanTable :=
  { t with codes := ((List.range 16).foldl (genStep t.offsets) (t.codes, 0)).1 }

/-- The canonical base values named in the spec: `canonicalBase offs (k-1)`
is the spec's `base_k`, with `base_1 = 0` and
`base_(k+1) = 2 * (base_k + count_k)`. -/
def canonicalBase (offsets : List Nat) : Nat → Nat
  | 0 => 0
  | k + 1 => 2 * (canonicalBase offsets k + (offsets.getD (k + 1) 0 - offsets.getD k 0))

/-- The fold state of `generate_codes` after the first `m` outer iterations. -/
def genFold (offsets codes0 : List Nat) (m : Nat) : List Nat × Nat :=
  (List.range m).foldl (genStep offsets) (codes0, 0)

/-- Concrete Huffman table: one symbol of code length 1, two of length 2. -/
def c4Table : HuffmanTable :=
  { offsets := [0, 1, 3, 3, 3, 3, 3, 3, 3, 3, 3, 3, 3, 3, 3, 3, 3],
    symbols := List.replicate 162 0, codes := List.replicate 162 0, is_set := true }

/-- Wrap of an `i16` intermediate value back into `-32768..32767`
(release-mode Rust wrapping for signed overflow). -/
def wrap16 (x : Int) : Int := (x + 32768) % 65536 - 32768

inductive Marker where
  | SOI
  | EOI
  | APP0
  | DQT
  | SOF0
  | DRI
  | APPN
  | SOFN
  | DHT
  | SOS
  | JPGEXT
  | DAC
  | RSTN
  | DNL
  | DHP
  | EXP
  | APP1
  | JPG
  | COM
  | TEM
deriving DecidableEq, Repr

/-- `Marker::new` from src/jpeg/header.rs: marker-code recognition. -/
def Marker.new (byte : Nat) : Option Marker :=
  if byte = 0x01 then some .TEM
  else if byte = 0xD8 then some .SOI
  else if byte = 0xD9 then some .EOI
  else if byte = 0xE0 then some .APP0
  else if byte = 0xDB then some .DQT
  else if byte = 0xC0 then some .SOF0
  else if byte = 0xC4 then some .DHT
  else if byte = 0xDD then some .DRI
  else if byte = 0xDA then some .SOS
  else if byte = 0xC8 then some .JPGEXT
  else if byte = 0xCC then some .DAC
  else if (0xC1 ≤ byte ∧ byte ≤ 0xC3) ∨ (0xC5 ≤ byte ∧ byte ≤ 0xC7)
      ∨ (0xC9 ≤ byte ∧ byte ≤ 0xCB) ∨ (0xCE ≤ byte ∧ byte ≤ 0xCF) then some .SOFN
  else if 0xD0 ≤ byte ∧ byte ≤ 0xD7 then some .RSTN
  else if byte = 0xDC then some .DNL
  else if byte = 0xDE then some .DHP
  else if byte = 0xDF then some .EXP
  else if byte = 0xE1 then some .APP1
  else if 0xE2 ≤ byte ∧ byte ≤ 0xEF then some .APPN
  else if 0xF0 ≤ byte ∧ byte ≤ 0xFD then some .JPG
  else if byte = 0xFE then some .COM
  else none

/-- `Marker::skip_sized_marker`: reads the 16-bit length and drops
`length - 2` bytes (`u16` subtraction wraps). -/
def skipSizedMarker (s : List Nat) : DResult (List Nat) := do
  let (len, s) ← markerLength s .InvalidMarker
  .ok (s.drop ((len + 65536 - 2) % 65536))

/-- Component loop of the SOF0 arm of `Marker::process`.  Reading a `0`
id byte switches on zero-based mode; ids are then rebased by `+1` (`u8`
wrap); rebased id `0` or `> 4` is `InvalidComponentID`; the slot lookup
`components.get_mut(id - 1).unwrap()` panics when the id is `4` because
the component array has length 3. -/
def sofComponentLoop : Nat → JPEGHeader → List Nat → DResult (JPEGHeader × List Nat)
  | 0, jpeg, s => .ok (jpeg, s)
  | n + 1, jpeg, s =>
    match rnext s (.InvalidSOF0Marker .MissingNextByte) with
    | .err e => .err e
    | .abort => .abort
    | .ok (idByte, s) =>
      let jpeg := if idByte = 0 then { jpeg with zero_based_component_id := true } else jpeg
      let id := if jpeg.zero_based_component_id then (idByte + 1) % 256 else idByte
      if id = 0 then .err (.InvalidSOF0Marker .InvalidComponentID)
      else if id > 4 then .err (.InvalidSOF0Marker .InvalidComponentID)
      else
        match jpeg.components.get? (id - 1) with
        | none => .abort
        | some component =>
          if component.is_used_sof then .err (.InvalidSOF0Marker .ComponentAlreadySet)
          else
            match rnext s (.InvalidSOF0Marker .MissingNextByte) with
            | .err e => .err e
            | .abort => .abort
            | .ok (factor, s) =>
              match rnext s (.InvalidSOF0Marker .MissingNextByte) with
              | .err e => .err e
              | .abort => .abort
              | .ok (qtable, s) =>
                if qtable > 3 then .err (.InvalidSOF0Marker .UnsupportedComponentQTable)
                else
                  let comp2 : ColorComponent := { component with
                    id := id,
                    hfactor := factor / 16,
                    vfactor := factor % 16,
                    qtable := qtable,
                    is_used_sof := true }
                  sofComponentLoop n
                    { jpeg with components := jpeg.components.set (id - 1) comp2 } s

/-- SOF0 arm of `Marker::process`. -/
def processSOF0 (jpeg : JPEGHeader) (s : List Nat) :
    DResult (JPEGHeader × List Nat × DecodingOutcome) :=
  if jpeg.is_sof_set then .err .MultipleSOF
  else do
    let (length0, s) ← markerLength s (.InvalidSOF0Marker .MissingNextByte)
    let (precision, s) ← rnext s (.InvalidSOF0Marker .MissingNextByte)
    if precision ≠ 8 then .err (.InvalidSOF0Marker .InvalidPrecision)
    else do
      let (h1, s) ← rnext s (.InvalidSOF0Marker .MissingNextByte)
      let (h2, s) ← rnext s (.InvalidSOF0Marker .MissingNextByte)
      let (w1, s) ← rnext s (.InvalidSOF0Marker .MissingNextByte)
      let (w2, s) ← rnext s (.InvalidSOF0Marker .MissingNextByte)
      let height := (256 * h1 + h2) % 65536
      let width := (256 * w1 + w2) % 65536
      if width = 0 ∨ height = 0 then .err (.InvalidSOF0Marker .ZeroDimensions)
      else do
        let (cn, s) ← rnext s (.InvalidSOF0Marker .MissingNextByte)
        if cn = 0 ∨ cn = 2 then .err (.InvalidSOF0Marker .InvalidComponentNumber)
        else
          let component_number := min (max cn 1) 4
          let jpeg := { jpeg with width := width, height := height }
          match sofComponentLoop component_number jpeg s with
          | .err e => .err e
          | .abort => .abort
          | .ok (jpeg, s) =>
            let jpeg := { jpeg with is_sof_set := true }
            if wrap16 (toI16 length0 - 8 - 3 * (component_number : Int)) ≠ 0 then
              .err (.InvalidSOF0Marker .InvalidMarkerLength)
            else if ¬ jpeg.components.any (fun c => c.is_used_sof) then
              .err (.InvalidSOF0Marker .NoComponentSet)
            else .ok (jpeg, s, .StartOfFrame)

/-- Component loop of the SOS arm of `Marker::process`.  The id is
rebased in zero-based mode, compared against `components.len()` (always
3), and then the slot `components[id - 1]` is indexed: an id of 0
underflows the `usize` subtraction and panics. -/
def sosComponentLoop : Nat → JPEGHeader → List Nat → DResult (JPEGHeader × List Nat)
  | 0, jpeg, s => .ok (jpeg, s)
  | n + 1, jpeg, s =>
    match rnext s (.InvalidSOSMarker .MissingNextByte) with
    | .err e => .err e
    | .abort => .abort
    | .ok (idByte, s) =>
      let component_id := if jpeg.zero_based_component_id then (idByte + 1) % 256 else idByte
      if component_id > jpeg.components.length then .err (.InvalidSOSMarker .InvalidComponentID)
      else
        match component_id with
        | 0 => .abort
        | cid + 1 =>
          match jpeg.components.get? cid with
          | none => .abort
          | some component =>
            if component.is_used_sos then .err (.InvalidSOSMarker .DuplicateComponentID)
            else
              let comp1 : ColorComponent := { component with is_used_sos := true }
              let jpeg := { jpeg with components := jpeg.components.set cid comp1 }
              match rnext s (.InvalidSOSMarker .MissingNextByte) with
              | .err e => .err e
              | .abort => .abort
              | .ok (htable_ids, s) =>
                let dc_id := htable_ids / 16
                let ac_id := htable_ids % 16
                if dc_id > 3 ∨ ac_id > 3 then .err (.InvalidSOSMarker .InvalidHuffmanTableID)
                else
                  let comp2 : ColorComponent := { comp1 with
                    huffman_table_dc_id := dc_id,
                    huffman_table_ac_id := ac_id }
                  sosComponentLoop n
                    { jpeg with components := jpeg.components.set cid comp2 } s

/-- SOS arm of `Marker::process`. -/
def processSOS (jpeg : JPEGHeader) (s : List Nat) :
    DResult (JPEGHeader × List Nat × DecodingOutcome) :=
  if ¬ jpeg.components.any (fun c => c.is_used_sof) then .err (.InvalidSOSMarker .InvalidOrder)
  else do
    let (length0, s) ← markerLength s (.InvalidSOSMarker .MissingNextByte)
    let (component_number, s) ← rnext s (.InvalidSOSMarker .MissingNextByte)
    if component_number = 0 ∨ component_number > 3 then
      .err (.InvalidSOSMarker .InvalidComponentNumber)
    else
      match sosComponentLoop component_number jpeg s with
      | .err e => .err e
      | .abort => .abort
      | .ok (jpeg, s) => do
        let (selection_start, s) ← rnext s (.InvalidSOSMarker .MissingNextByte)
        let (selection_end, s) ← rnext s (.InvalidSOSMarker .MissingNextByte)
        if selection_start ≠ 0 ∨ selection_end > 0x3F then
          .err (.InvalidSOSMarker .InvalidSpectralSelection)
        else
          let jpeg := { jpeg with
            start_of_selection := selection_start,
            end_of_selection := selection_end }
          do
          let (approximation, s) ← rnext s (.InvalidSOSMarker .MissingNextByte)
          let high := approximation / 16
          let low := approximation % 16
          if high ≠ 0 ∨ low ≠ 0 then .err (.InvalidSOSMarker .InvalidSuccesiveApproximation)
          else
            let jpeg := { jpeg with
              successive_approximation_high := high,
              successive_approximation_low := low }
            if wrap16 (toI16 length0 - 6 - 2 * (component_number : Int)) ≠ 0 then
              .err (.InvalidSOSMarker .InvalidMarkerLength)
            else .ok (jpeg, s, .StartOfScan)

/-- DHT: reads the 16 length-count bytes, accumulating the `u8` running
total (wrapping `% 256`) into `offsets[1..17]`. -/
def readDHTOffsets : Nat → Nat → Nat → HuffmanTable → List Nat →
    DResult (Nat × HuffmanTable × List Nat)
  | 0, _, total, ht, s => .ok (total, ht, s)
  | n + 1, i, total, ht, s =>
    match rnext s (.InvalidDHTMarker .MissingNextByte) with
    | .err e => .err e
    | .abort => .abort
    | .ok (b, s) =>
      readDHTOffsets n (i + 1) ((total + b) % 256)
        { ht with offsets := ht.offsets.set i ((total + b) % 256) } s

/-- DHT: reads `total_symbols` symbol bytes into `symbols[0..]`. -/
def readDHTSymbols : Nat → Nat → HuffmanTable → List Nat → DResult (HuffmanTable × List Nat)
  | 0, _, ht, s => .ok (ht, s)
  | n + 1, i, ht, s => do
    let (b, s) ← rnext s (.InvalidDHTMarker .MissingNextByte)
    readDHTSymbols n (i + 1) { ht with symbols := ht.symbols.set i b } s

/-- The `while length > 0` loop of the DHT arm.  The fuel is supplied as
`stream length + 1`; every iteration consumes at least 17 bytes, so the
fuel never runs out. -/
def dhtLoop : Nat → Int → JPEGHeader → List Nat → DResult (Int × JPEGHeader × List Nat)
  | 0, len, jpeg, s => if len ≤ 0 then .ok (len, jpeg, s) else .abort
  | fuel + 1, len, jpeg, s =>
    if len ≤ 0 then .ok (len, jpeg, s)
    else
      match rnext s (.InvalidDHTMarker .MissingNextByte) with
      | .err e => .err e
      | .abort => .abort
      | .ok (table_info, s) =>
      let table_id := table_info % 16
      let is_ac := table_info / 16 = 1
      if table_id > 3 then .err (.InvalidDHTMarker .InvalidTableId)
      else
        let ht := if is_ac then jpeg.huffman_tables_ac.getD table_id HuffmanTable.init
          else jpeg.huffman_tables_dc.getD table_id HuffmanTable.init
        match readDHTOffsets 16 1 0 ht s with
        | .err e => .err e
        | .abort => .abort
        | .ok (total, ht, s) =>
          if total > 0xA2 then .err (.InvalidDHTMarker .InvalidSymbolsLength)
          else
            match readDHTSymbols total 0 ht s with
            | .err e => .err e
            | .abort => .abort
            | .ok (ht, s) =>
              let ht := { ht with is_set := true }
              let jpeg := if is_ac then
                  { jpeg with huffman_tables_ac := jpeg.huffman_tables_ac.set table_id ht }
                else { jpeg with huffman_tables_dc := jpeg.huffman_tables_dc.set table_id ht }
              dhtLoop fuel (wrap16 (len - (17 + (total : Int)))) jpeg s

/-- DHT arm of `Marker::process`. -/
def processDHT (jpeg : JPEGHeader) (s : List Nat) :
    DResult (JPEGHeader × List Nat × DecodingOutcome) := do
  let (length0, s) ← markerLength s (.InvalidDHTMarker .MissingNextByte)
  match dhtLoop (s.length + 1) (wrap16 (toI16 length0 - 2)) jpeg s with
  | .err e => .err e
  | .abort => .abort
  | .ok (len, jpeg, s) =>
    if ¬ (jpeg.huffman_tables_ac ++ jpeg.huffman_tables_dc).any (fun t => t.is_set) then
      .err (.InvalidDHTMarker .NoTableSet)
    else if len ≠ 0 then .err (.InvalidDHTMarker .InvalidMarkerLength)
    else .ok (jpeg, s, .HuffmanTable)

/-- DRI arm of `Marker::process`. -/
def processDRI (jpeg : JPEGHeader) (s : List Nat) :
    DResult (JPEGHeader × List Nat × DecodingOutcome) := do
  let (length0, s) ← markerLength s .InvalidRestartIntervalMarker
  if length0 ≠ 4 then .err .InvalidRestartIntervalMarker
  else do
    let (x, s) ← rnext s .InvalidRestartIntervalMarker
    let (y, s) ← rnext s .InvalidRestartIntervalMarker
    .ok ({ jpeg with restart_interval := (256 * x + y) % 65536 }, s, .none)

/-- DQT: reads 64 8-bit entries, de-zigzagging into natural order. -/
def readQTable8 : Nat → Nat → List Nat → List Nat → DResult (List Nat × List Nat)
  | 0, _, data, s => .ok (data, s)
  | n + 1, i, data, s => do
    let (b, s) ← rnext s (.InvalidDQTMarker .MissingNextByte)
    readQTable8 n (i + 1) (data.set (ZIGZAG.getD i 0) b) s

/-- DQT: reads 64 big-endian 16-bit entries, de-zigzagging. -/
def readQTable16 : Nat → Nat → List Nat → List Nat → DResult (List Nat × List Nat)
  | 0, _, data, s => .ok (data, s)
  | n + 1, i, data, s => do
    let (x, s) ← rnext s (.InvalidDQTMarker .MissingNextByte)
    let (y, s) ← rnext s (.InvalidDQTMarker .MissingNextByte)
    readQTable16 n (i + 1) (data.set (ZIGZAG.getD i 0) ((256 * x + y) % 65536)) s

/-- The `while length > 0` loop of the DQT arm (fuel as in `dhtLoop`). -/
def dqtLoop : Nat → Int → JPEGHeader → List Nat → DResult (Int × JPEGHeader × List Nat)
  | 0, len, jpeg, s => if len ≤ 0 then .ok (len, jpeg, s) else .abort
  | fuel + 1, len, jpeg, s =>
    if len ≤ 0 then .ok (len, jpeg, s)
    else do
      let (idb, s) ← rnext s (.InvalidDQTMarker .MissingNextByte)
      let len := wrap16 (len - 1)
      let is_extended := idb / 16 = 1
      let kind := idb % 16
      match (match kind with
        | 0 => some QTableType.Luminance
        | 1 => some QTableType.Chrominance
        | 2 => some QTableType.Other
        | 3 => some QTableType.Other
        | _ => none) with
      | none => .err (.InvalidDQTMarker .InvalidTableDestination)
      | some qtable_type =>
        match (if is_extended then readQTable16 64 0 (List.replicate 64 0) s
          else readQTable8 64 0 (List.replicate 64 0) s) with
        | .err e => .err e
        | .abort => .abort
        | .ok (data, s) =>
          let len := wrap16 (len - (if is_extended then 128 else 64))
          let qtable : QTable := { is_set := true, is_extended_mode := is_extended, kind := qtable_type, table := data }
          dqtLoop fuel len { jpeg with qtables := jpeg.qtables.set kind qtable } s

/-- DQT arm of `Marker::process`. -/
def processDQT (jpeg : JPEGHeader) (s : List Nat) :
    DResult (JPEGHeader × List Nat × DecodingOutcome) := do
  let (length0, s) ← markerLength s (.InvalidDQTMarker .MissingNextByte)
  match dqtLoop (s.length + 1) (wrap16 (toI16 length0 - 2)) jpeg s with
  | .err e => .err e
  | .abort => .abort
  | .ok (_, jpeg, s) =>
    if ¬ jpeg.qtables.any (fun t => t.is_set) then .err (.InvalidDQTMarker .NoTableSet)
    else .ok (jpeg, s, .QTableSet)

/-- APP0 thumbnail loop. -/
def readThumb : Nat → List Nat → List Nat → DResult (List Nat × List Nat)
  | 0, acc, s => .ok (acc, s)
  | n + 1, acc, s => do
    let (b, s) ← rnext s .InvalidAPP0Marker
    readThumb n (acc ++ [b]) s

/-- APP0 arm of `Marker::process`. -/
def processAPP0 (jpeg : JPEGHeader) (s : List Nat) :
    DResult (JPEGHeader × List Nat × DecodingOutcome) := do
  let (length0, s) ← markerLength s .InvalidAPP0Marker
  let len := wrap16 (toI16 length0 - 2)
  let s := s.drop 3
  let (idb, s) ← rnext s .InvalidAPP0Marker
  let is_extension := idb = 0x58
  let s := s.drop 1
  let len := wrap16 (len - 5)
  if ¬ is_extension then
    if jpeg.jfif.isSome then .ok (jpeg, s, .none)
    else do
      let (major_version, s) ← rnext s .InvalidAPP0Marker
      let (minor_version, s) ← rnext s .InvalidAPP0Marker
      let (unitsb, s) ← rnext s .InvalidAPP0Marker
      match (match unitsb with
        | 0 => some JfifUnit.NoUnit
        | 1 => some JfifUnit.PerInch
        | 2 => some JfifUnit.PerCenti
        | _ => none) with
      | none => .err .InvalidAPP0Marker
      | some units => do
        let (x1, s) ← rnext s .InvalidAPP0Marker
        let (x2, s) ← rnext s .InvalidAPP0Marker
        let (y1, s) ← rnext s .InvalidAPP0Marker
        let (y2, s) ← rnext s .InvalidAPP0Marker
        let (x_thumbnail, s) ← rnext s .InvalidAPP0Marker
        let (y_thumbnail, s) ← rnext s .InvalidAPP0Marker
        let len := wrap16 (len - 9)
        match readThumb len.toNat [] s with
        | .err e => .err e
        | .abort => .abort
        | .ok (thumbnail_data, s) =>
          let ap : APP0 := {
            major_version := major_version,
            minor_version := minor_version,
            units := units,
            x_density := (256 * x1 + x2) % 65536,
            y_density := (256 * y1 + y2) % 65536,
            x_thumbnail := x_thumbnail,
            y_thumbnail := y_thumbnail,
            thumbnail_data := thumbnail_data }
          .ok ({ jpeg with jfif := some ap }, s, .none)
  else .ok (jpeg, s.drop len.toNat, .none)

/-- `Marker::process` dispatch.  The APP1 arm is `todo!()` in the source,
which panics. -/
def Marker.process (m : Marker) (jpeg : JPEGHeader) (s : List Nat) :
    DResult (JPEGHeader × List Nat × DecodingOutcome) :=
  match m with
  | .TEM => .ok (jpeg, s, .none)
  | .SOI => .ok (jpeg, s, .none)
  | .EOI => .err .EndOfImageBeforeSOS
  | .RSTN => .err .RestartMarkerBeforeSOS
  | .APPN | .SOFN | .JPGEXT | .DAC | .DNL | .DHP | .EXP | .JPG | .COM =>
    (match skipSizedMarker s with
     | .ok s2 => .ok (jpeg, s2, .none)
     | .err e => .err e
     | .abort => .abort)
  | .APP1 => .abort
  | .SOS => processSOS jpeg s
  | .DHT => processDHT jpeg s
  | .DRI => processDRI jpeg s
  | .SOF0 => processSOF0 jpeg s
  | .DQT => processDQT jpeg s
  | .APP0 => processAPP0 jpeg s

/-- Skip of repeated `0xFF` fill bytes at the head of the stream
(the peek loop at the top of `Marker::read`). -/
def skipFF : List Nat → List Nat
  | [] => []
  | b :: rest => if b = 255 then skipFF rest else b :: rest

/-- `Marker::read`: skip fill bytes, read the marker code, dispatch. -/
def Marker.read (jpeg : JPEGHeader) (s : List Nat) :
    DResult (JPEGHeader × List Nat × DecodingOutcome) :=
  match skipFF s with
  | [] => .err .InvalidMarker
  | b :: rest =>
    match Marker.new b with
    | some m => if m = .SOI then .err .MultipleSOI else m.process jpeg rest
    | none => .err (.UnknownMarker b)

/-- `Marker::scan`: the entropy-coded scan extractor.  It mirrors the
source exactly, including the always-true disjunction
`0xD0 <= next || next <= 0xD7` in the restart-marker branch.  Fuel is
the stream length plus one; every iteration consumes at least one byte. -/
def scanFuel : Nat → List Nat → List Nat → DResult (List Nat × List Nat)
  | _, [], _ => .err .PrematureEnd
  | 0, _ :: _, _ => .abort
  | fuel + 1, cur :: rest, acc =>
    if cur = 255 then
      match rest with
      | [] => .err .PrematureEnd
      | nxt :: rest2 =>
        if nxt = 217 then .ok (rest, acc)
        else if nxt = 0 then scanFuel fuel rest2 (acc ++ [cur])
        else if 208 ≤ nxt ∨ nxt ≤ 215 then scanFuel fuel rest2 acc
        else scanFuel fuel rest acc
    else scanFuel fuel rest (acc ++ [cur])

/-- `Marker::scan` entry point. -/
def scanLoop (s acc : List Nat) : DResult (List Nat × List Nat) :=
  scanFuel (s.length + 1) s acc

/-- `BitReader` from src/jpeg/header.rs. -/
structure BitReader where
  data : List Nat
  bit_position : Nat
  byte_position : Nat
deriving DecidableEq, Repr

/-- `BitReader::read_bit`: MSB-first within each byte. -/
def BitReader.read_bit (r : BitReader) : Option (Nat × BitReader) :=
  match r.data.get? r.byte_position with
  | none => none
  | some byte =>
    let bit := byte / 2 ^ (7 - r.bit_position) % 2
    if r.bit_position + 1 = 8 then
      some (bit, { r with bit_position := 0, byte_position := r.byte_position + 1 })
    else some (bit, { r with bit_position := r.bit_position + 1 })

def readLengthAux : Nat → Nat → BitReader → Option (Nat × BitReader)
  | 0, output, r => some (output, r)
  | n + 1, output, r =>
    match r.read_bit with
    | none => none
    | some (bit, r) => readLengthAux n (2 * output + bit) r

/-- `BitReader::read_length`: reads `length` bits into an accumulator. -/
def BitReader.read_length (r : BitReader) (length : Nat) : Option (Nat × BitReader) :=
  readLengthAux length 0 r

/-- `BitReader::align`: advance to a byte boundary if mid-byte. -/
def BitReader.align (r : BitReader) : BitReader :=
  if r.byte_position < r.data.length ∧ r.bit_position ≠ 0 then
    { r with bit_position := 0, byte_position := r.byte_position + 1 }
  else r

/-- Inner code-match loop of `get_next_symbol`: scans indices
`j, j+1, ...` (`n` of them) for `codes[j] == code`; out-of-range
indexing into the fixed-size arrays panics. -/
def scanCodes (code : Nat) (t : HuffmanTable) : Nat → Nat → DResult (Option Nat)
  | _, 0 => .ok none
  | j, n + 1 =>
    if j < t.codes.length then
      if code = t.codes.getD j 0 then
        (if j < t.symbols.length then .ok (some (t.symbols.getD j 0)) else .abort)
      else scanCodes code t (j + 1) n
    else .abort

def getNextSymbolAux : Nat → Nat → Nat → BitReader → HuffmanTable → DResult (Nat × BitReader)
  | 0, _, _, _, _ => .err (.HuffmanDecode .SymbolNotFound)
  | n + 1, i, code, reader, t =>
    match reader.read_bit with
    | none => .err (.HuffmanDecode .ReadPastLength)
    | some (bit, reader) =>
      let code := 2 * code + bit
      match scanCodes code t (t.offsets.getD i 0) (t.offsets.getD (i + 1) 0 - t.offsets.getD i 0) with
      | .abort => .abort
      | .err e => .err e
      | .ok (some sym) => .ok (sym, reader)
      | .ok none => getNextSymbolAux n (i + 1) code reader t

/-- `JPEGHeader::get_next_symbol`: reads up to 16 bits, matching against
the canonical code table; 16 failures is `SymbolNotFound`. -/
def get_next_symbol (reader : BitReader) (t : HuffmanTable) : DResult (Nat × BitReader) :=
  getNextSymbolAux 16 0 0 reader t

/-- Zero-run fill of the AC loop: `for _ in 0..skip_zeros
{ component[ZIGZAG[i]] = 0; i += 1 }`. -/
def zeroFill : Nat → Nat → List Int → List Int
  | 0, _, component => component
  | n + 1, i, component => zeroFill n (i + 1) (component.set (ZIGZAG.getD i 0) 0)

/-- AC decoding loop (`while i < 64`) of `JPEGHeader::decode_mcus`.  The
index strictly increases each iteration, so fuel 64 never runs out. -/
def acLoop : Nat → Nat → BitReader → List Int → HuffmanTable → DResult (BitReader × List Int)
  | 0, _, reader, component, _ => .ok (reader, component)
  | fuel + 1, i, reader, component, ac_table =>
    if i ≥ 64 then .ok (reader, component)
    else
      match get_next_symbol reader ac_table with
      | .err e => .err e
      | .abort => .abort
      | .ok (symbol, reader) =>
        if symbol = 0 then .ok (reader, component)
        else
          let skip_zeros := if symbol = 0xF0 then 16 else symbol / 16
          let coeff_len := symbol % 16
          if i + skip_zeros ≥ 64 then .err (.HuffmanDecode .ZerosExceedMCULength)
          else
            let component := zeroFill skip_zeros i component
            let i := i + skip_zeros
            if coeff_len > 10 then .err (.HuffmanDecode .InvalidACCoefficientLength)
            else if coeff_len ≠ 0 then
              match reader.read_length coeff_len with
              | none => .err (.HuffmanDecode .ReadPastLength)
              | some (v, reader) =>
                let ac_coeff : Int :=
                  if (v : Int) < 2 ^ (coeff_len - 1) then (v : Int) - (2 ^ coeff_len - 1)
                  else (v : Int)
                acLoop fuel (i + 1) reader (component.set (ZIGZAG.getD i 0) ac_coeff) ac_table
            else acLoop fuel i reader component ac_table

/-- `JPEGHeader::decode_mcus`: one component of one MCU; returns the
updated reader, coefficient block and DC predictor. -/
def decode_mcus (reader : BitReader) (component : List Int) (previous_dc : Int)
    (dc_table ac_table : HuffmanTable) : DResult (BitReader × List Int × Int) :=
  match get_next_symbol reader dc_table with
  | .err e => .err e
  | .abort => .abort
  | .ok (length, reader) =>
    if length > 11 then .err (.HuffmanDecode .InvalidDCCoefficientLength)
    else
      match reader.read_length length with
      | none => .err (.HuffmanDecode .ReadPastLength)
      | some (v, reader) =>
        let dc_coeff : Int :=
          if length ≠ 0 ∧ (v : Int) < 2 ^ (length - 1) then (v : Int) - (2 ^ length - 1)
          else (v : Int)
        let dc := dc_coeff + previous_dc
        match acLoop 64 1 reader (component.set 0 dc) ac_table with
        | .err e => .err e
        | .abort => .abort
        | .ok (reader, component) => .ok (reader, component, dc)

/-- `MCU::component` (read side; only indices 0..2 are ever used). -/
def MCU.componentGet (m : MCU) (idx : Nat) : List Int :=
  match idx with
  | 0 => m.r
  | 1 => m.g
  | _ => m.b

/-- `MCU::component` (write side). -/
def MCU.componentSet (m : MCU) (idx : Nat) (v : List Int) : MCU :=
  match idx with
  | 0 => { m with r := v }
  | 1 => { m with g := v }
  | _ => { m with b := v }

/-- The `for j in 0..components.len()` loop inside `decode_huffman`. -/
def decodeComps : List Nat → BitReader → MCU → List Int → JPEGHeader →
    DResult (BitReader × MCU × List Int)
  | [], reader, mcu, prevs, _ => .ok (reader, mcu, prevs)
  | j :: rest, reader, mcu, prevs, jpeg =>
    let comp := jpeg.components.getD j ColorComponent.init
    let dc_table := jpeg.huffman_tables_dc.getD comp.huffman_table_dc_id HuffmanTable.init
    let ac_table := jpeg.huffman_tables_ac.getD comp.huffman_table_ac_id HuffmanTable.init
    match decode_mcus reader (mcu.componentGet j) (prevs.getD j 0) dc_table ac_table with
    | .err e => .err e
    | .abort => .abort
    | .ok (reader, carr, dc) =>
      decodeComps rest reader (mcu.componentSet j carr) (prevs.set j dc) jpeg

/-- The MCU grid loop (`for i in 0..mcu_height * mcu_width`) of
`decode_huffman`, including the restart-interval reset. -/
def mcuLoop : Nat → Nat → BitReader → List MCU → List Int → JPEGHeader →
    DResult (BitReader × List MCU × List Int)
  | 0, _, reader, mcus, prevs, _ => .ok (reader, mcus, prevs)
  | n + 1, i, reader, mcus, prevs, jpeg =>
    let rp : BitReader × List Int :=
      if jpeg.restart_interval ≠ 0 ∧ i % jpeg.restart_interval = 0 then
        (reader.align, [0, 0, 0])
      else (reader, prevs)
    match decodeComps [0, 1, 2] rp.1 (mcus.getD i MCU.init) rp.2 jpeg with
    | .err e => .err e
    | .abort => .abort
    | .ok (reader, mcu, prevs) => mcuLoop n (i + 1) reader (mcus.set i mcu) prevs jpeg

/-- Per-bank `generate_codes` pass at the top of `decode_huffman`. -/
def generateAllCodes (tables : List HuffmanTable) : List HuffmanTable :=
  tables.map (fun t => if t.is_set then t.generate_codes else t)

/-- `JPEGHeader::decode_huffman`.  All dimension arithmetic is `u16`
(wrapping): `mcu_height = (height + 7) / 8`, `mcu_width = (width + 7) / 8`
and the grid size `mcu_height * mcu_width` each reduce modulo 65536.
Returns the header (whose set tables now carry generated codes) together
with the MCU grid. -/
def JPEGHeader.decode_huffman (jpeg : JPEGHeader) : DResult (JPEGHeader × List MCU) :=
  let mcu_height := ((jpeg.height + 7) % 65536) / 8
  let mcu_width := ((jpeg.width + 7) % 65536) / 8
  let count := (mcu_height * mcu_width) % 65536
  let jpeg := { jpeg with
    huffman_tables_dc := generateAllCodes jpeg.huffman_tables_dc,
    huffman_tables_ac := generateAllCodes jpeg.huffman_tables_ac }
  let reader : BitReader := { data := jpeg.huffman_data, bit_position := 0, byte_position := 0 }
  match mcuLoop count 0 reader (List.replicate count MCU.init) [0, 0, 0] jpeg with
  | .err e => .err e
  | .abort => .abort
  | .ok (_, mcus, _) => .ok (jpeg, mcus)

/-- One component check of the last-validation loop in `JPEGHeader::new`. -/
def checkComponent (jpeg : JPEGHeader) (c : ColorComponent) : DResult Unit :=
  if (c.is_used_sos ∧ ¬ c.is_used_sof) ∨ (c.is_used_sof ∧ ¬ c.is_used_sos) then
    .err .InvalidColorComponent
  else
    match jpeg.huffman_tables_dc.get? c.huffman_table_dc_id with
    | none => .err .InvalidColorComponent
    | some dct =>
      if ¬ dct.is_set then .err .InvalidColorComponent
      else
        match jpeg.huffman_tables_ac.get? c.huffman_table_ac_id with
        | none => .err .InvalidColorComponent
        | some act =>
          if ¬ act.is_set then .err .InvalidColorComponent
          else
            match jpeg.qtables.get? c.qtable with
            | none => .err .InvalidColorComponent
            | some qt =>
              if ¬ qt.is_set then .err .InvalidColorComponent
              else .ok ()

def validateLoop (jpeg : JPEGHeader) : List ColorComponent → DResult Unit
  | [] => .ok ()
  | c :: rest =>
    match checkComponent jpeg c with
    | .ok _ => validateLoop jpeg rest
    | .err e => .err e
    | .abort => .abort

/-- The `for component in components` cross-validation in
`JPEGHeader::new` (runs over all three slots, used or not). -/
def validateComponents (jpeg : JPEGHeader) : DResult Unit :=
  validateLoop jpeg jpeg.components

/-- SOI search loop of `JPEGHeader::new`: after each `0xFF` the
following byte is consumed by the look-ahead `stream.next()` even when
it is not `0xD8`.  A single trailing byte yields `none` whether or not
it is `0xFF` (a trailing `0xFF` finds no look-ahead byte; anything else
recurses into the empty stream). -/
def findSOI : List Nat → Option (List Nat)
  | [] => none
  | [_] => none
  | b :: c :: rest2 =>
    if b = 255 then (if c = 216 then some rest2 else findSOI rest2)
    else findSOI (c :: rest2)

/-- Marker dispatch loop of `JPEGHeader::new`.  The final `Bool` of the
result is `has_sos`.  Fuel is the stream length plus one; every
iteration consumes at least one byte. -/
def headerLoop : Nat → JPEGHeader → List Nat → Bool → Bool → Bool →
    DResult (JPEGHeader × List Nat × Bool × Bool × Bool × Bool)
  | 0, jpeg, s, sof, qt, ht =>
    (match s with
     | [] => .ok (jpeg, [], sof, qt, ht, false)
     | _ => .abort)
  | fuel + 1, jpeg, s, sof, qt, ht =>
    match s with
    | [] => .ok (jpeg, [], sof, qt, ht, false)
    | b :: rest =>
      if b = 255 then
        match rest with
        | [] => .err .InvalidMarker
        | _ :: _ =>
          match Marker.read jpeg rest with
          | .err e => .err e
          | .abort => .abort
          | .ok (jpeg, s2, outcome) =>
            match outcome with
            | .StartOfFrame => headerLoop fuel jpeg s2 true qt ht
            | .QTableSet => headerLoop fuel jpeg s2 sof true ht
            | .HuffmanTable => headerLoop fuel jpeg s2 sof qt true
            | .StartOfScan => .ok (jpeg, s2, sof, qt, ht, true)
            | .none => headerLoop fuel jpeg s2 sof qt ht
      else headerLoop fuel jpeg rest sof qt ht

/-- `JPEGHeader::new`, keeping the MCU grid that `decode_huffman`
produces next to the returned header. -/
def JPEGHeader.newFull (stream : List Nat) : DResult (JPEGHeader × List MCU) :=
  match findSOI stream with
  | none => .err .StartOfImageNotFound
  | some s =>
    match s with
    | [] => .err .NoData
    | _ :: _ =>
      match headerLoop (s.length + 1) JPEGHeader.init s false false false with
      | .err e => .err e
      | .abort => .abort
      | .ok (jpeg, s, has_sof, has_qtable, has_htable, has_sos) =>
        if ¬ has_sof then .err .StartOfFrameNotFound
        else if ¬ has_qtable then .err .QTableNotFound
        else if ¬ has_htable then .err .HTableNotFound
        else if ¬ has_sos then .err .SOSNotFound
        else
          match scanLoop s [] with
          | .err e => .err e
          | .abort => .abort
          | .ok (_, data) =>
            let jpeg := { jpeg with huffman_data := data }
            match validateComponents jpeg with
            | .err e => .err e
            | .abort => .abort
            | .ok _ => jpeg.decode_huffman

/-- `JPEGHeader::new` as the caller sees it: the statement
`jpeg_header.decode_huffman()?;` drops the returned `Vec<MCU>`, so only
the header survives. -/
def JPEGHeader.new (stream : List Nat) : DResult JPEGHeader :=
  match JPEGHeader.newFull stream with
  | .ok (jpeg, _) => .ok jpeg
  | .err e => .err e
  | .abort => .abort

/-- A complete minimal JPEG input: SOI, an 8-bit DQT at destination 0,
an 8x8 single-component SOF0, a DC and an AC Huffman table (one symbol
of length 1, the symbol `0x00`), SOS, one byte of entropy data, EOI. -/
def goodInput : List Nat :=
  [255, 216,
   255, 219, 0x00, 0x43, 0x00] ++ List.replicate 64 0 ++
  [255, 192, 0x00, 0x0B, 0x08, 0x00, 0x08, 0x00, 0x08, 0x01, 0x01, 0x11, 0x00,
   255, 196, 0x00, 0x14, 0x00, 1, 0, 0, 0, 0, 0, 0, 0, 0, 0, 0, 0, 0, 0, 0, 0, 0x00,
   255, 196, 0x00, 0x14, 0x10, 1, 0, 0, 0, 0, 0, 0, 0, 0, 0, 0, 0, 0, 0, 0, 0, 0x00,
   255, 218, 0x00, 0x08, 0x01, 0x01, 0x00, 0x00, 0x3F, 0x00,
   0x00,
   255, 217]

/-- The Huffman table that `goodInput`'s DHT segments produce (codes
already generated: the single length-1 code is 0). -/
def goodTable : HuffmanTable :=
  { offsets := [0, 1, 1, 1, 1, 1, 1, 1, 1, 1, 1, 1, 1, 1, 1, 1, 1],
    symbols := List.replicate 162 0, codes := List.replicate 162 0, is_set := true }

/-- The color component that `goodInput`'s SOF0/SOS populate. -/
def goodComponent : ColorComponent :=
  { id := 1, hfactor := 1, vfactor := 1, qtable := 0, huffman_table_ac_id := 0,
    huffman_table_dc_id := 0, is_used_sof := true, is_used_sos := true }

/-- The header value `JPEGHeader::new` returns on `goodInput`. -/
def goodHeader : JPEGHeader := { JPEGHeader.init with
  qtables := [{ QTable.init with is_set := true, kind := .Luminance },
    QTable.init, QTable.init, QTable.init],
  huffman_tables_dc := [goodTable, HuffmanTable.init, HuffmanTable.init, HuffmanTable.init],
  huffman_tables_ac := [goodTable, HuffmanTable.init, HuffmanTable.init, HuffmanTable.init],
  components := [goodComponent, ColorComponent.init, ColorComponent.init],
  is_sof_set := true,
  height := 8,
  width := 8,
  huffman_data := [0] }

/-- `goodInput` with the SOF0 height bytes replaced by `FF FE`
(65534) and the entropy byte removed: an accepted JPEG whose height is
near the `u16` maximum, so `height + 7` overflows `u16` during
MCU-grid sizing. -/
def c5Input : List Nat :=
  [255, 216,
   255, 219, 0x00, 0x43, 0x00] ++ List.replicate 64 0 ++
  [255, 192, 0x00, 0x0B, 0x08, 0xFF, 0xFE, 0x00, 0x08, 0x01, 0x01, 0x11, 0x00,
   255, 196, 0x00, 0x14, 0x00, 1, 0, 0, 0, 0, 0, 0, 0, 0, 0, 0, 0, 0, 0, 0, 0, 0x00,
   255, 196, 0x00, 0x14, 0x10, 1, 0, 0, 0, 0, 0, 0, 0, 0, 0, 0, 0, 0, 0, 0, 0, 0x00,
   255, 218, 0x00, 0x08, 0x01, 0x01, 0x00, 0x00, 0x3F, 0x00,
   255, 217]

/-- The header that decoding `c5Input` produces. -/
def c5FullHeader : JPEGHeader := { goodHeader with height := 65534, huffman_data := [] }

/-- A header state in which SOF0 declared exactly one component. -/
def c7State : JPEGHeader := { JPEGHeader.init with
  components := [{ ColorComponent.init with id := 1, is_used_sof := true },
    ColorComponent.init, ColorComponent.init],
  is_sof_set := true }

/-- The state `c7State` becomes after an SOS naming component id 2. -/
def c7After : JPEGHeader := { c7State with
  components := [{ ColorComponent.init with id := 1, is_used_sof := true },
    { ColorComponent.init with is_used_sos := true },
    ColorComponent.init] }

/-- The per-slot predicate that the cross-validation loop of
`JPEGHeader::new` actually enforces on every one of the three component
slots, used or not. -/
def componentOk (jpeg : JPEGHeader) (c : ColorComponent) : Bool :=
  (c.is_used_sof == c.is_used_sos) &&
  (match jpeg.huffman_tables_dc.get? c.huffman_table_dc_id with
   | some t => t.is_set
   | none => false) &&
  (match jpeg.huffman_tables_ac.get? c.huffman_table_ac_id with
   | some t => t.is_set
   | none => false) &&
  (match jpeg.qtables.get? c.qtable with
   | some t => t.is_set
   | none => false)

/-- Modelled from the spec (claim C9 wording): cross-validation passes
when every component has `used_in_sof = used_in_sos` and every component
that is used in the scan selects present DC, AC and quantization tables;
slots used in neither SOF nor SOS impose no table requirement. -/
def c9SpecOk (jpeg : JPEGHeader) : Bool :=
  jpeg.components.all (fun c =>
    (c.is_used_sof == c.is_used_sos) &&
    (!c.is_used_sos ||
      ((match jpeg.huffman_tables_dc.get? c.huffman_table_dc_id with
        | some t => t.is_set
        | none => false) &&
       (match jpeg.huffman_tables_ac.get? c.huffman_table_ac_id with
        | some t => t.is_set
        | none => false) &&
       (match jpeg.qtables.get? c.qtable with
        | some t => t.is_set
        | none => false))))

/-- A component used in both SOF and SOS that selects DC1, AC1 and Q1. -/
def c9Component : ColorComponent := { ColorComponent.init with
  id := 1,
  qtable := 1,
  huffman_table_dc_id := 1,
  huffman_table_ac_id := 1,
  is_used_sof := true,
  is_used_sos := true }

/-- A header using only table bank 1 (see `c9Component`): banks 0 are
absent, and the two unused slots default to selector 0. -/
def c9Header : JPEGHeader := { JPEGHeader.init with
  components := [c9Component, ColorComponent.init, ColorComponent.init],
  huffman_tables_dc := [HuffmanTable.init, { HuffmanTable.init with is_set := true },
    HuffmanTable.init, HuffmanTable.init],
  huffman_tables_ac := [HuffmanTable.init, { HuffmanTable.init with is_set := true },
    HuffmanTable.init, HuffmanTable.init],
  qtables := [QTable.init, { QTable.init with is_set := true }, QTable.init, QTable.init],
  is_sof_set := true,
  height := 8,
  width := 8 }

/-- A complete JPEG whose single component selects DC1/AC1/Q1, with
exactly those tables defined: the claim's cross-validation rule is
satisfied, but the code also inspects the two unused component slots
(default selector 0) and rejects the stream. -/
def c9Input : List Nat :=
  [255, 216,
   255, 219, 0x00, 0x43, 0x01] ++ List.replicate 64 0 ++
  [255, 192, 0x00, 0x0B, 0x08, 0x00, 0x08, 0x00, 0x08, 0x01, 0x01, 0x11, 0x01,
   255, 196, 0x00, 0x14, 0x01, 1, 0, 0, 0, 0, 0, 0, 0, 0, 0, 0, 0, 0, 0, 0, 0, 0x00,
   255, 196, 0x00, 0x14, 0x11, 1, 0, 0, 0, 0, 0, 0, 0, 0, 0, 0, 0, 0, 0, 0, 0, 0x00,
   255, 218, 0x00, 0x08, 0x01, 0x01, 0x11, 0x00, 0x3F, 0x00,
   0x00,
   255, 217]

/-- Whether the byte sequence contains `0xFF` immediately followed by
`0xD8` at some (any) position. -/
def hasSOIPair : List Nat → Bool
  | a :: b :: rest => (a == 255 && b == 216) || hasSOIPair (b :: rest)
  | _ => false

theorem fillCodes_length (n : Nat) : ∀ s code codes, (fillCodes n s code codes).length = codes.length := by
  induction n with
  | zero => intro s code codes; rfl
  | succ n ih => intro s code codes; rw [fillCodes, ih]; simp

theorem fillCodes_getD_lt (n : Nat) : ∀ s code codes j, j < s →
    (fillCodes n s code codes).getD j 0 = codes.getD j 0 := by
  induction n with
  | zero => intro s code codes j _; rfl
  | succ n ih =>
    intro s code codes j hj
    rw [fillCodes, ih (s + 1) (code + 1) _ j (Nat.lt_succ_of_lt hj)]
    have hs : s ≠ j := by omega
    simp [List.getD_eq_getElem?_getD, List.getElem?_set_ne hs]

theorem fillCodes_getD_ge (n : Nat) : ∀ s code codes j, s + n ≤ j →
    (fillCodes n s code codes).getD j 0 = codes.getD j 0 := by
  induction n with
  | zero => intro s code codes j _; rfl
  | succ n ih =>
    intro s code codes j hj
    rw [fillCodes, ih (s + 1) (code + 1) _ j (by omega)]
    have hs : s ≠ j := by omega
    simp [List.getD_eq_getElem?_getD, List.getElem?_set_ne hs]

theorem fillCodes_getD_in (n : Nat) : ∀ s code codes j, s ≤ j → j < s + n → j < codes.length →
    (fillCodes n s code codes).getD j 0 = code + (j - s) := by
  induction n with
  | zero => intro s code codes j h1 h2 _; omega
  | succ n ih =>
    intro s code codes j h1 h2 hlen
    by_cases hj : j = s
    · have hlen' : s < codes.length := hj ▸ hlen
      rw [fillCodes, fillCodes_getD_lt n (s + 1) (code + 1) _ j (by omega), hj]
      simp [List.getD_eq_getElem?_getD, List.getElem?_set, hlen']
    · rw [fillCodes, ih (s + 1) (code + 1) (codes.set s code) j (by omega) (by omega)
        (by simpa using hlen)]
      omega

theorem genFold_succ (offsets codes0 : List Nat) (m : Nat) :
    genFold offsets codes0 (m + 1) = genStep offsets (genFold offsets codes0 m) m := by
  simp [genFold, List.range_succ]

theorem genFold_snd (offsets codes0 : List Nat) (m : Nat) :
    (genFold offsets codes0 m).2 = canonicalBase offsets m := by
  induction m with
  | zero => rfl
  | succ m ih => rw [genFold_succ]; simp [genStep, canonicalBase, ih]

theorem genFold_length (offsets codes0 : List Nat) (m : Nat) :
    (genFold offsets codes0 m).1.length = codes0.length := by
  induction m with
  | zero => rfl
  | succ m ih => rw [genFold_succ]; simp [genStep, fillCodes_length, ih]

theorem offsets_mono (offsets : List Nat)
    (hmono : ∀ i, i < 16 → offsets.getD i 0 ≤ offsets.getD (i + 1) 0) :
    ∀ b, b ≤ 16 → ∀ a, a ≤ b → offsets.getD a 0 ≤ offsets.getD b 0 := by
  intro b
  induction b with
  | zero => intro _ a ha; simp [Nat.le_zero.mp ha]
  | succ b ih =>
    intro hb a ha
    rcases Nat.eq_or_lt_of_le ha with h | h
    · subst h; exact le_refl _
    · exact le_trans (ih (by omega) a (by omega)) (hmono b (by omega))

theorem genFold_getD_in (offsets codes0 : List Nat)
    (hmono : ∀ i, i < 16 → offsets.getD i 0 ≤ offsets.getD (i + 1) 0) :
    ∀ m, m ≤ 16 → ∀ k, k < m → ∀ j, offsets.getD k 0 ≤ j → j < offsets.getD (k + 1) 0 →
    j < codes0.length →
    (genFold offsets codes0 m).1.getD j 0 = canonicalBase offsets k + (j - offsets.getD k 0) := by
  intro m
  induction m with
  | zero => intro _ k hk; omega
  | succ m ih =>
    intro hm k hk j hj1 hj2 hjlen
    rw [genFold_succ]
    simp only [genStep]
    rcases Nat.lt_succ_iff_lt_or_eq.mp hk with h | h
    · have hle : offsets.getD (k + 1) 0 ≤ offsets.getD m 0 :=
        offsets_mono offsets hmono m (by omega) (k + 1) (by omega)
      rw [fillCodes_getD_lt _ _ _ _ _ (by omega)]
      exact ih (by omega) k h j hj1 hj2 hjlen
    · subst h
      have hcur : offsets.getD k 0 ≤ offsets.getD (k + 1) 0 := hmono k (by omega)
      rw [genFold_snd,
        fillCodes_getD_in _ _ _ _ _ hj1 (by omega) (by rw [genFold_length]; exact hjlen)]

/-- C4: for a Huffman table whose offsets are cumulative (monotone) with
`offsets[0] = 0` and `offsets[16] ≤ 162`, `generate_codes` assigns to the
indices of the k-th length class the contiguous canonical range starting
at `base_k`, where `base_1 = 0` and `base_(k+1) = 2 * (base_k + count_k)`. -/
theorem generate_codes_canonical (t : HuffmanTable)
    (hclen : t.codes.length = 162)
    (hmono : ∀ i, i < 16 → t.offsets.getD i 0 ≤ t.offsets.getD (i + 1) 0)
    (h0 : t.offsets.getD 0 0 = 0) (h16 : t.offsets.getD 16 0 ≤ 162)
    (k j : Nat) (hk1 : 1 ≤ k) (hk16 : k ≤ 16)
    (hj1 : t.offsets.getD (k - 1) 0 ≤ j) (hj2 : j < t.offsets.getD k 0) :
    (t.generate_codes).codes.getD j 0
      = canonicalBase t.offsets (k - 1) + (j - t.offsets.getD (k - 1) 0) := by
  have hjlen : j < t.codes.length := by
    have := offsets_mono t.offsets hmono 16 (le_refl 16) k hk16
    omega
  obtain ⟨k', rfl⟩ : ∃ k', k = k' + 1 := ⟨k - 1, by omega⟩
  simp only [Nat.add_sub_cancel] at hj1 ⊢
  show (genFold t.offsets t.codes 16).1.getD j 0 = _
  exact genFold_getD_in t.offsets t.codes hmono 16 (le_refl 16) k' (by omega) j hj1 hj2 hjlen

/-- Witness for C4: the second code of length 2 is `base_2 + 1 = 3`. -/
theorem generate_codes_canonical_witness :
    (c4Table.generate_codes).codes.getD 2 0
      = canonicalBase c4Table.offsets 1 + (2 - c4Table.offsets.getD 1 0) :=
  generate_codes_canonical c4Table (by decide) (by decide) (by decide) (by decide)
    2 2 (by decide) (by decide) (by decide) (by decide)

/-- C1: the claim states that decode always returns a Header or an Error
value and never panics, and in particular that an APP1 marker, an SOF0
component id of exactly 4, and an SOS component id of 0 outside
zero-based mode each yield Error values.  On all three inputs the code
panics instead — `todo!()` in the APP1 arm, `unwrap` of `None` from
`components.get_mut(3)` on the 3-slot array, and the `usize` underflow
of `component_id - 1` followed by out-of-bounds indexing — modelled here
by `DResult.abort`. -/
theorem decode_panics_on_app1_sof4_sos0 :
    JPEGHeader.new [255, 216, 255, 225] = DResult.abort ∧
    JPEGHeader.new [255, 216, 255, 192, 0, 11, 8, 0, 8, 0, 8, 1, 4] = DResult.abort ∧
    JPEGHeader.new [255, 216, 255, 192, 0, 11, 8, 0, 8, 0, 8, 1, 1, 17, 0, 255, 218, 0, 8, 1, 0]
      = DResult.abort :=
  ⟨by decide, by decide, by decide⟩

/-- C3: the scan extractor handles non-`0xFF` bytes, `FF 00`
un-stuffing, `FF D9` termination, RSTn consumption and premature end as
the claim states, but because the source tests `0xD0 <= next || next <=
0xD7` — true of every byte — an out-of-band marker such as `FF C4` does
NOT terminate the scan: its second byte is consumed and extraction
continues (first conjunct: the buffer receives the later byte `0x41`
instead of stopping empty at the marker). -/
theorem scan_swallows_out_of_band_marker :
    scanLoop [255, 196, 65, 255, 217] [] = .ok ([217], [65]) ∧
    scanLoop [255, 0, 65, 255, 217] [] = .ok ([217], [255, 65]) ∧
    scanLoop [255, 212, 65, 255, 217] [] = .ok ([217], [65]) ∧
    scanLoop [65] [] = .err .PrematureEnd :=
  ⟨by decide, by decide, by decide, by decide⟩

/-- C2 counterexample: on the complete valid input `goodInput` decode
succeeds and the Huffman stage produces a one-MCU grid, but the value
`JPEGHeader::new` returns is exactly `goodHeader` — width, height,
component metadata, restart interval, JFIF field and the raw scan
buffer — with the decoded MCU grid discarded, not part of the returned
header. -/
theorem header_without_mcu_grid_cex :
    JPEGHeader.new goodInput = .ok goodHeader ∧
    JPEGHeader.newFull goodInput = .ok (goodHeader, [MCU.init]) :=
  ⟨by decide, by decide⟩

/-- C2 amended: whenever decode succeeds, the MCU grid was computed by
`decode_huffman` (its errors propagate) and then dropped: the pipeline
that keeps the grid returns the same header paired with some grid. -/
theorem new_discards_mcu_grid (s : List Nat) (h : JPEGHeader)
    (hok : JPEGHeader.new s = .ok h) :
    ∃ mcus, JPEGHeader.newFull s = .ok (h, mcus) := by
  unfold JPEGHeader.new at hok
  rcases heq : JPEGHeader.newFull s with p | e | _ <;> rw [heq] at hok
  · obtain ⟨h2, m⟩ := p
    simp only [DResult.ok.injEq] at hok
    subst hok
    exact ⟨m, rfl⟩
  · simp at hok
  · simp at hok

/-- Witness for the C2 amended theorem at the concrete input
`goodInput`. -/
theorem new_discards_mcu_grid_witness :
    JPEGHeader.new goodInput = .ok goodHeader ∧
    (∃ mcus, JPEGHeader.newFull goodInput = .ok (goodHeader, mcus)) :=
  ⟨by decide, new_discards_mcu_grid goodInput goodHeader (by decide)⟩

theorem hasSOIPair_tail (x : Nat) (t : List Nat) (h : hasSOIPair (x :: t) = false) :
    hasSOIPair t = false := by
  cases t with
  | nil => rfl
  | cons y t2 =>
    rw [hasSOIPair] at h
    exact (Bool.or_eq_false_iff.mp h).2

theorem findSOI_eq_none_aux (n : Nat) : ∀ l : List Nat, l.length ≤ n →
    hasSOIPair l = false → findSOI l = none := by
  induction n with
  | zero =>
    intro l hl _
    have hnil : l = [] := List.eq_nil_of_length_eq_zero (Nat.le_zero.mp hl)
    subst hnil
    rfl
  | succ n ih =>
    intro l hl h
    cases l with
    | nil => rfl
    | cons b rest =>
      cases rest with
      | nil => rw [findSOI]
      | cons c rest2 =>
        rw [findSOI]
        by_cases hb : b = 255
        · rw [if_pos hb]
          have hc : ¬ c = 216 := by
            intro hc
            rw [hasSOIPair] at h
            simp [hb, hc] at h
          rw [if_neg hc]
          refine ih rest2 (by simp at hl; omega) ?_
          exact hasSOIPair_tail c rest2 (hasSOIPair_tail b (c :: rest2) h)
        · rw [if_neg hb]
          exact ih (c :: rest2) (by simp at hl ⊢; omega) (hasSOIPair_tail b (c :: rest2) h)

theorem findSOI_of_no_pair (l : List Nat) (h : hasSOIPair l = false) : findSOI l = none :=
  findSOI_eq_none_aux l.length l (le_refl _) h

/-- C10 amended: inputs with no `FF D8` pair at any position always
yield `StartOfImageNotFound`.  The converse direction of the claim fails
(see the counterexample): the SOI search consumes the byte after each
`0xFF` as look-ahead, so a pair whose `0xFF` was itself consumed as
look-ahead is missed. -/
theorem new_no_soi_pair (l : List Nat) (h : hasSOIPair l = false) :
    JPEGHeader.new l = .err .StartOfImageNotFound := by
  unfold JPEGHeader.new JPEGHeader.newFull
  rw [findSOI_of_no_pair l h]

/-- Witness for the C10 amended theorem on a pair-free input. -/
theorem new_no_soi_pair_witness :
    JPEGHeader.new [65, 66, 67] = .err .StartOfImageNotFound :=
  new_no_soi_pair [65, 66, 67] (by decide)

/-- C10 counterexample: `FF FF D8` contains the consecutive pair
`FF D8` (at positions 1,2), yet decode reports `StartOfImageNotFound`,
because the scanner consumed the second `0xFF` as the look-ahead of the
first and then saw only `D8`. -/
theorem soi_pair_missed_cex :
    hasSOIPair [255, 255, 216] = true ∧
    JPEGHeader.new [255, 255, 216] = .err .StartOfImageNotFound :=
  ⟨by decide, by decide⟩

theorem mcuLoop_length (n : Nat) : ∀ i reader mcus prevs jpeg r m p,
    mcuLoop n i reader mcus prevs jpeg = .ok (r, m, p) → m.length = mcus.length := by
  induction n with
  | zero =>
    intro i reader mcus prevs jpeg r m p h
    simp only [mcuLoop, DResult.ok.injEq, Prod.mk.injEq] at h
    rw [← h.2.1]
  | succ n ih =>
    intro i reader mcus prevs jpeg r m p h
    rw [mcuLoop] at h
    split at h
    · simp at h
    · simp at h
    · rename_i reader2 mcu prevs2 heq
      rw [ih _ _ _ _ _ _ _ _ h]
      simp

/-- C5 amended: when the `u16` dimension arithmetic cannot wrap —
`height` and `width` at most 65528 and `ceil(h/8) * ceil(w/8)` at most
65535 — a successful `decode_huffman` returns a grid of exactly
`ceil(h/8) * ceil(w/8)` MCUs.  Near the `u16` maximum the additions
`height + 7` / `width + 7` and the grid product wrap, and the grid size
is computed from the wrapped values instead (see the counterexample). -/
theorem decode_huffman_grid_size (jpeg h2 : JPEGHeader) (mcus : List MCU)
    (hh : jpeg.height ≤ 65528) (hw : jpeg.width ≤ 65528)
    (hp : (jpeg.height + 7) / 8 * ((jpeg.width + 7) / 8) ≤ 65535)
    (hok : jpeg.decode_huffman = .ok (h2, mcus)) :
    mcus.length = (jpeg.height + 7) / 8 * ((jpeg.width + 7) / 8) := by
  unfold JPEGHeader.decode_huffman at hok
  simp only [Nat.mod_eq_of_lt (show jpeg.height + 7 < 65536 by omega),
      Nat.mod_eq_of_lt (show jpeg.width + 7 < 65536 by omega),
      Nat.mod_eq_of_lt (show (jpeg.height + 7) / 8 * ((jpeg.width + 7) / 8) < 65536 by omega)]
    at hok
  split at hok
  · simp at hok
  · simp at hok
  · rename_i reader mcus0 prevs heq
    simp only [DResult.ok.injEq, Prod.mk.injEq] at hok
    rw [← hok.2]
    rw [mcuLoop_length _ _ _ _ _ _ _ _ _ heq]
    simp

/-- Witness for the C5 amended theorem: `goodHeader` (8 by 8) decodes
to a grid of exactly one MCU. -/
theorem decode_huffman_grid_size_witness :
    ([MCU.init] : List MCU).length
      = (goodHeader.height + 7) / 8 * ((goodHeader.width + 7) / 8) :=
  decode_huffman_grid_size goodHeader goodHeader [MCU.init]
    (by decide) (by decide) (by decide) (by decide)

/-- C5 counterexample: decode accepts `c5Input`, whose header has
height 65534 and width 8 — both in 1..65535 — for which the claim
demands a grid of `ceil(65534/8) * ceil(8/8) = 8192` MCUs; in the
decoder `height + 7` wraps to 5 in `u16`, so the Huffman stage walks
and returns an empty grid. -/
theorem decode_huffman_grid_overflow_cex :
    JPEGHeader.newFull c5Input = .ok (c5FullHeader, []) ∧
    (c5FullHeader.height + 7) / 8 * ((c5FullHeader.width + 7) / 8) = 8192 ∧
    1 ≤ c5FullHeader.height ∧ c5FullHeader.height ≤ 65535 ∧
    1 ≤ c5FullHeader.width ∧ c5FullHeader.width ≤ 65535 :=
  ⟨by decide, by decide, by decide, by decide, by decide, by decide⟩

theorem readDHTOffsets_total (n : Nat) :
    ∀ (counts rest : List Nat) (i total : Nat) (ht : HuffmanTable),
    counts.length = n → total < 256 →
    ∃ ht2, readDHTOffsets n i total ht (counts ++ rest)
      = .ok ((total + counts.sum) % 256, ht2, rest) := by
  induction n with
  | zero =>
    intro counts rest i total ht hlen htot
    have hnil : counts = [] := List.eq_nil_of_length_eq_zero hlen
    subst hnil
    exact ⟨ht, by simp [readDHTOffsets, Nat.mod_eq_of_lt htot]⟩
  | succ n ih =>
    intro counts rest i total ht hlen htot
    cases counts with
    | nil => simp at hlen
    | cons c cs =>
      obtain ⟨ht2, hrec⟩ := ih cs rest (i + 1) ((total + c) % 256)
        { ht with offsets := ht.offsets.set i ((total + c) % 256) }
        (by simpa using hlen) (Nat.mod_lt _ (by omega))
      refine ⟨ht2, ?_⟩
      rw [readDHTOffsets]
      simp only [List.cons_append, rnext]
      rw [hrec]
      simp [List.sum_cons, Nat.mod_add_mod, Nat.add_assoc]

/-- C6 amended: the DHT symbol-count check operates on the `u8`-wrapped
running total: a table whose 16 length counts have `sum % 256` greater
than 162 is rejected with `InvalidSymbolsLength`.  True sums above 255
wrap (a sum of 256 wraps to 0) and can pass the check undetected, so
the claim holds only for the wrapped total, not for every sum up to
4080 (see the counterexample). -/
theorem dht_symbols_length_check (fuel : Nat) (len : Int) (jpeg : JPEGHeader)
    (info : Nat) (counts rest : List Nat)
    (hlen : ¬ len ≤ 0) (hinfo : info % 16 ≤ 3) (hcount : counts.length = 16)
    (hsum : 162 < counts.sum % 256) :
    dhtLoop (fuel + 1) len jpeg (info :: (counts ++ rest))
      = .err (.InvalidDHTMarker .InvalidSymbolsLength) := by
  obtain ⟨ht2, hrec⟩ := readDHTOffsets_total 16 counts rest 1 0
    (if info / 16 = 1 then jpeg.huffman_tables_ac.getD (info % 16) HuffmanTable.init
     else jpeg.huffman_tables_dc.getD (info % 16) HuffmanTable.init)
    hcount (by omega)
  rw [dhtLoop, if_neg hlen]
  simp only [rnext]
  rw [if_neg (show ¬ info % 16 > 3 by omega)]
  split
  · rename_i e heq
    rw [hrec] at heq
    exact absurd heq (by simp)
  · rename_i heq
    rw [hrec] at heq
    exact absurd heq (by simp)
  · rename_i total ht3 s3 heq
    rw [hrec] at heq
    simp only [DResult.ok.injEq, Prod.mk.injEq] at heq
    obtain ⟨h1, -, -⟩ := heq
    rw [if_pos (show total > 162 by omega)]

/-- Witness for the C6 amended theorem: 16 counts summing to 163. -/
theorem dht_symbols_length_check_witness :
    dhtLoop 1 1 JPEGHeader.init
      (0 :: ([163, 0, 0, 0, 0, 0, 0, 0, 0, 0, 0, 0, 0, 0, 0, 0] ++ []))
      = .err (.InvalidDHTMarker .InvalidSymbolsLength) :=
  dht_symbols_length_check 0 1 JPEGHeader.init 0
    [163, 0, 0, 0, 0, 0, 0, 0, 0, 0, 0, 0, 0, 0, 0, 0] []
    (by decide) (by decide) (by decide) (by decide)

/-- C6 counterexample: a DHT segment whose 16 length counts sum to 256
(greater than 162, within the claimed range up to 4080).  The `u8`
running total wraps to 0, the check passes, the table is accepted with
zero symbols, and decode proceeds — failing later only because the
stream ends before any SOF0, not with `InvalidSymbolsLength`. -/
theorem dht_wrapped_total_cex :
    ([255, 1, 0, 0, 0, 0, 0, 0, 0, 0, 0, 0, 0, 0, 0, 0] : List Nat).sum = 256 ∧
    JPEGHeader.new
      [255, 216, 255, 196, 0x00, 0x13, 0x00,
       255, 1, 0, 0, 0, 0, 0, 0, 0, 0, 0, 0, 0, 0, 0, 0]
      = .err .StartOfFrameNotFound :=
  ⟨by decide, by decide⟩

/-- C7 amended: each scan component id (after zero-based rebasing) is
validated against the fixed component capacity `components.len()`
(always 3), not against the number of components the preceding SOF0
declared: whenever the loop reads a rebased id exceeding the array
length it rejects with `InvalidComponentID`, and ids within capacity
pass this check even when SOF0 declared fewer components (see the
counterexample). -/
theorem sos_id_checked_against_capacity (n : Nat) (jpeg : JPEGHeader) (idByte : Nat)
    (s : List Nat)
    (hid : (if jpeg.zero_based_component_id then (idByte + 1) % 256 else idByte)
      > jpeg.components.length) :
    sosComponentLoop (n + 1) jpeg (idByte :: s)
      = .err (.InvalidSOSMarker .InvalidComponentID) := by
  rw [sosComponentLoop]
  simp only [rnext]
  rw [if_pos hid]

/-- Witness for the C7 amended theorem: rebased id 4 against the
3-slot array. -/
theorem sos_id_checked_against_capacity_witness :
    sosComponentLoop 1 JPEGHeader.init [4] = .err (.InvalidSOSMarker .InvalidComponentID) :=
  sos_id_checked_against_capacity 0 JPEGHeader.init 4 [] (by decide)

/-- C7 counterexample: SOF0 declared exactly one component, and the SOS
names component id 2 (greater than that count).  The claim requires
`InvalidComponentID`; the code compares 2 against the fixed capacity 3,
accepts it, and completes the SOS segment with `StartOfScan`. -/
theorem sos_id_exceeding_sof_count_cex :
    (c7State.components.filter (fun c => c.is_used_sof)).length = 1 ∧
    processSOS c7State [0, 8, 1, 2, 0, 0, 63, 0] = .ok (c7After, [], .StartOfScan) :=
  ⟨by decide, by decide⟩

/-- C8 amended: in the SOF0 component loop, any id byte of 0 — not only
the first — switches zero-based mode on: reading 0 with the mode off
behaves exactly as if the mode were already on (second conjunct), so a
0 id byte is rebased to 1 and never directly rejected.  The
`InvalidComponentID` rejection fires precisely when the rebased id is 0
(reachable only through `u8` wrap of id byte 255 in zero-based mode) or
exceeds 4 (first conjunct). -/
theorem sof_zero_id_enters_mode :
    (∀ n : Nat, ∀ jpeg : JPEGHeader, ∀ idByte : Nat, ∀ s : List Nat,
      ((if jpeg.zero_based_component_id ∨ idByte = 0 then (idByte + 1) % 256 else idByte) = 0 ∨
       (if jpeg.zero_based_component_id ∨ idByte = 0 then (idByte + 1) % 256 else idByte) > 4) →
      sofComponentLoop (n + 1) jpeg (idByte :: s)
        = .err (.InvalidSOF0Marker .InvalidComponentID)) ∧
    (∀ n : Nat, ∀ jpeg : JPEGHeader, ∀ s : List Nat,
      sofComponentLoop (n + 1) jpeg (0 :: s)
        = sofComponentLoop (n + 1) { jpeg with zero_based_component_id := true } (0 :: s)) := by
  constructor
  · intro n jpeg idByte s hid
    rw [sofComponentLoop]
    simp only [rnext]
    by_cases h0 : idByte = 0
    · subst h0
      simp at hid
    · cases hzb : jpeg.zero_based_component_id with
      | true =>
        simp [hzb] at hid
        rcases hid with hid | hid
        · simp [h0, hzb, hid]
        · have hne : ¬ ((idByte + 1) % 256 = 0) := by omega
          simp [h0, hzb, hne, hid]
      | false =>
        simp [hzb, h0] at hid
        simp [h0, hzb, hid]
  · intro n jpeg s
    rw [sofComponentLoop, sofComponentLoop]
    simp [rnext]

/-- Witness for the C8 amended theorem: id byte 5 rebases to 5 > 4 and
is rejected. -/
theorem sof_zero_id_enters_mode_witness :
    sofComponentLoop 1 JPEGHeader.init [5] = .err (.InvalidSOF0Marker .InvalidComponentID) :=
  sof_zero_id_enters_mode.1 0 JPEGHeader.init 5 [] (by decide)

/-- C8 counterexample: SOF0 declares three components; the first id
byte is 1, the second is 0, read while zero-based mode is NOT active.
The claim requires `InvalidSOF0Marker(InvalidComponentID)`; the code
instead enters zero-based mode at the second component, rebases its id
to 1, and fails with `ComponentAlreadySet` because slot 0 is taken. -/
theorem sof_zero_id_mid_frame_cex :
    processSOF0 JPEGHeader.init
      [0x00, 0x11, 0x08, 0x00, 0x08, 0x00, 0x08, 0x03, 0x01, 0x11, 0x00, 0x00]
      = .err (.InvalidSOF0Marker .ComponentAlreadySet) := by decide

theorem checkComponent_eq (jpeg : JPEGHeader) (c : ColorComponent) :
    checkComponent jpeg c
      = (if componentOk jpeg c then .ok () else .err .InvalidColorComponent) := by
  unfold checkComponent componentOk
  rcases h1 : jpeg.huffman_tables_dc.get? c.huffman_table_dc_id with _ | dct <;>
  rcases h2 : jpeg.huffman_tables_ac.get? c.huffman_table_ac_id with _ | act <;>
  rcases h3 : jpeg.qtables.get? c.qtable with _ | qt <;>
  cases hsof : c.is_used_sof <;> cases hsos : c.is_used_sos <;>
  simp_all <;>
  cases hds : dct.is_set <;> cases has : act.is_set <;> cases hqs : qt.is_set <;>
  simp [hds, has, hqs]

theorem validateLoop_eq (jpeg : JPEGHeader) : ∀ l : List ColorComponent,
    validateLoop jpeg l
      = (if l.all (componentOk jpeg) then .ok () else .err .InvalidColorComponent) := by
  intro l
  induction l with
  | nil => rfl
  | cons c rest ih =>
    rw [validateLoop, checkComponent_eq]
    by_cases hc : componentOk jpeg c = true
    · rw [if_pos hc]
      simp [List.all_cons, hc, ih]
    · rw [if_neg hc]
      simp [List.all_cons, hc]

/-- C9 amended: the cross-validation stage accepts exactly when every
one of the three component slots — whether used in SOF/SOS or not — has
matching usage flags and selects present DC, AC and quantization
tables; otherwise it fails with `InvalidColorComponent`.  Because
unused slots carry default selector 0, mere presence of the components
array forces DC bank 0, AC bank 0 and quantization table 0 to be
present, contrary to the claim's final clause. -/
theorem validate_components_characterization (jpeg : JPEGHeader) :
    validateComponents jpeg
      = (if jpeg.components.all (componentOk jpeg) then .ok ()
         else .err .InvalidColorComponent) :=
  validateLoop_eq jpeg jpeg.components

/-- C9 counterexample: `c9Header` meets the claim's requirement — the
only component used in the scan selects present tables DC1/AC1/Q1 and
no slot mixes SOF/SOS usage — yet the code's validation also inspects
the two unused default slots (selector 0) and rejects with
`InvalidColorComponent` because bank 0 and table 0 are absent. -/
theorem validate_unused_slots_cex :
    c9SpecOk c9Header = true ∧
    validateComponents c9Header = .err .InvalidColorComponent ∧
    JPEGHeader.new c9Input = .err .InvalidColorComponent :=
  ⟨by decide, by decide, by decide⟩

end Jpeg
